import Mathlib

/-!
Shallow embedding of `src/lambda_function.py` from the commitron repository:
an AWS Lambda that fetches a GitHub token from Secrets Manager, clones a
repository branch into `/tmp/repo`, increments a counter stored in a file,
commits and pushes. External effects (secret store, git, filesystem) are
modelled by oracle outcomes supplied in a `World` record; every operation the
code invokes is recorded in an explicit `Effect` trace, and every `logger`
call in an explicit log-line trace.
-/

/-- Characters stripped by Python `str.strip()` (ASCII whitespace; the
unicode whitespace Python also strips is not modelled). -/
def pyWhitespace (c : Char) : Bool :=
  c = ' ' || c = '\t' || c = '\n' || c = '\r' || c = '\x0b' || c = '\x0c'

/-- Models Python `str.strip()`: drop leading and trailing whitespace. -/
def pyStrip (s : String) : String :=
  String.mk (((s.data.dropWhile pyWhitespace).reverse.dropWhile pyWhitespace).reverse)

/-- Numeric value of an ASCII digit character. -/
def digitVal (c : Char) : Nat := c.toNat - 48

/-- Digits of a Python integer literal after the first digit: ASCII digits,
with single underscores allowed between digits (Python `int()` grammar). -/
def pyDigitsTail : List Char → Nat → Option Nat
  | [], acc => some acc
  | '_' :: c :: cs, acc =>
      if c.isDigit then pyDigitsTail cs (acc * 10 + digitVal c) else none
  | c :: cs, acc =>
      if c.isDigit then pyDigitsTail cs (acc * 10 + digitVal c) else none

/-- Unsigned part of Python `int()`: a nonempty digit string, underscores only
between digits. -/
def pyDigits : List Char → Option Nat
  | [] => none
  | c :: cs => if c.isDigit then pyDigitsTail cs (digitVal c) else none

/-- Models Python `int(s)` on an already-stripped character list: optional
sign, then a nonempty ASCII digit string with optional single underscores
between digits. -/
def pyIntOfData : List Char → Option Int
  | '+' :: cs => Option.map (fun n => (n : Int)) (pyDigits cs)
  | '-' :: cs => Option.map (fun n => -(n : Int)) (pyDigits cs)
  | cs => Option.map (fun n => (n : Int)) (pyDigits cs)

/-- Models Python `int(s)` for a stripped string. -/
def pyInt (s : String) : Option Int := pyIntOfData s.data

/-- Models Python `str(i)` for an integer: decimal digits, with a leading
minus sign when negative. -/
def py_str (i : Int) : String :=
  if i < 0 then "-" ++ Nat.repr i.natAbs else Nat.repr i.natAbs

/-- Models `update_counter` (src/lambda_function.py lines 69-98) as a pure
function of the counter file's state (`none` = file absent). Returns the
counter value returned by the function and the string written to the file
(mode "w" truncates, so the write is a full overwrite). Mirrors the source:
`counter = 1`; if the file exists, `counter = int(content.strip()) + 1`,
falling back to 1 on `ValueError`; then `write(str(counter))`. Filesystem
faults (the outer `except`) are not modelled. -/
def update_counter (fileContent : Option String) : Int × String :=
  match fileContent with
  | none => (1, py_str 1)
  | some content =>
      match pyInt (pyStrip content) with
      | some n => (n + 1, py_str (n + 1))
      | none => (1, py_str 1)

/-- The parsed prior value of a counter-file state, when there is one. -/
def parsedOf (c : Option String) : Option Int :=
  Option.bind c (fun s => pyInt (pyStrip s))

/-- One invocation of an external operation, as the source performs it.
Constructors follow the call sites in src/lambda_function.py: the Secrets
Manager `get_secret_value` call, the `rm -rf` subprocess, `Repo.clone_from`
(which clones only the branch passed as the `branch` keyword), the
`config_writer` key/value writes (GitPython's `repo.config_writer()` defaults
to the repository-local configuration level), the counter-file read and
write, `repo.git.add`, `repo.index.commit`, and `repo.remote.push`. -/
inductive Effect where
  | getSecret (secretId : String)
  | removeDir (path : String)
  | cloneRepo (url : String) (branch : String)
  | setLocalConfig (sec key val : String)
  | readFile (path : String)
  | writeFile (path : String) (content : String)
  | gitAdd (path : String)
  | gitCommit (msg : String)
  | gitPush (remote : String)
deriving DecidableEq, Repr

/-- Body of the handler's response: `json.dumps` of either the success dict
(message, repository, branch) or the failure dict (error). -/
inductive Body where
  | success (message repository branch : String)
  | failure (error : String)
deriving DecidableEq, Repr

/-- The handler's return value: `statusCode` plus a body. -/
structure Response where
  statusCode : Nat
  body : Body
deriving DecidableEq, Repr

/-- Oracles for everything outside the program: the process environment, the
pre-existing state of `/tmp/repo`, the counter file's content after the clone
(at the computed counter path; `none` = absent), the secret-store outcome and
the token it returns on success, and the outcomes of the clone, stage, commit
and push operations (`Except.error e` carries the Python exception's `str`). -/
structure World where
  env : String → Option String
  repoDirExists : Bool
  secretOutcome : Except String Unit
  token : String
  cloneOutcome : Except String Unit
  counterFile : Option String
  addOutcome : Except String Unit
  commitOutcome : Except String Unit
  pushOutcome : Except String Unit

/-- The required environment variables checked by `lambda_handler`
(src/lambda_function.py line 113). -/
def REQUIRED_ENV_VARS : List String :=
  ["GITHUB_REPO", "FILE_PATH", "BRANCH", "AWS_SECRET_ID"]

/-- Python truthiness test `not os.environ.get(var)`: true when the variable
is absent or the empty string. -/
def envBlank (v : Option String) : Bool :=
  match v with
  | none => true
  | some s => s = ""

/-- Models `[var for var in required_env_vars if not os.environ.get(var)]`. -/
def missingVars (env : String → Option String) : List String :=
  REQUIRED_ENV_VARS.filter (fun v => envBlank (env v))

/-- Models Python `sep.join(l)`. -/
def pyJoin (sep : String) : List String → String
  | [] => ""
  | [x] => x
  | x :: y :: xs => x ++ sep ++ pyJoin sep (y :: xs)

/-- The `ValueError` message raised when required variables are missing. -/
def missingMsg (missing : List String) : String :=
  "Missing required environment variables: " ++ pyJoin ", " missing

/-- Environment lookup `os.environ[v]` after validation has ensured presence
(`getD ""` is never hit on the validated path). -/
def getEnvD (env : String → Option String) (v : String) : String :=
  (env v).getD ""

/-- Models `get_github_token` (lines 17-33): one `get_secret_value` call; on
`ClientError` it logs and re-raises, on success it returns the secret
string. Result, effect trace, log trace. -/
def get_github_token (secretOutcome : Except String Unit) (token secret_id : String) :
    Except String String × List Effect × List String :=
  match secretOutcome with
  | Except.error e =>
      (Except.error e, [Effect.getSecret secret_id],
       ["Failed to retrieve secret: " ++ e])
  | Except.ok _ =>
      (Except.ok token, [Effect.getSecret secret_id], [])

/-- Models `setup_repo` (lines 35-67): forcibly remove `/tmp/repo` when it
exists, clone the given branch from the URL, then set the repository-local
`user.name` and `user.email` to the bot identity. On a clone failure it logs
and re-raises; the `rm -rf` subprocess is assumed to succeed. Result, effect
trace, log trace. -/
def setup_repo (dirExists : Bool) (cloneOutcome : Except String Unit)
    (repo_url branch : String) :
    Except String Unit × List Effect × List String :=
  let cleanupEffects := if dirExists then [Effect.removeDir "/tmp/repo"] else []
  let cleanupLogs := if dirExists then ["Cleaning up existing repo directory"] else []
  match cloneOutcome with
  | Except.error e =>
      (Except.error e,
       cleanupEffects ++ [Effect.cloneRepo repo_url branch],
       cleanupLogs ++ ["Cloning repository", "Failed to set up repository: " ++ e])
  | Except.ok _ =>
      (Except.ok (),
       cleanupEffects ++
         [Effect.cloneRepo repo_url branch,
          Effect.setLocalConfig "user" "name" "Commitron Bot",
          Effect.setLocalConfig "user" "email" "bot@commitron.com"],
       cleanupLogs ++ ["Cloning repository"])

/-- Tests whether a path begins with the POSIX separator (absolute path). -/
def startsWithSlash (s : String) : Bool :=
  match s.data with
  | '/' :: _ => true
  | _ => false

/-- Tests whether a path ends with the POSIX separator. -/
def endsWithSlash (s : String) : Bool :=
  match s.data.getLast? with
  | some '/' => true
  | _ => false

/-- Models `os.path.join` (POSIX) for the two-argument call at line 129: an
absolute second component discards the first; otherwise the components are
joined with a separator unless the first already ends in one (or is empty). -/
def os_path_join (a b : String) : String :=
  if startsWithSlash b then b
  else if a = "" || endsWithSlash a then a ++ b
  else a ++ "/" ++ b

/-- The counter file path computed by the handler:
`os.path.join("/tmp/repo", file_path)`. -/
def counter_file_path (file_path : String) : String :=
  os_path_join "/tmp/repo" file_path

/-- `update_counter` with its effect and log traces: a read when the file
exists, always a (truncating) write, and the `ValueError` warning that logs
the stripped content when it does not parse. -/
def update_counter_run (p : String) (fileContent : Option String) :
    Int × List Effect × List String :=
  let r := update_counter fileContent
  let readEffects := match fileContent with
    | some _ => [Effect.readFile p]
    | none => []
  let warnLogs := match fileContent with
    | none => []
    | some content =>
        match pyInt (pyStrip content) with
        | some _ => []
        | none => ["Invalid counter value in file: " ++ pyStrip content ++ ", resetting to 1"]
  (r.1, readEffects ++ [Effect.writeFile p r.2], warnLogs)

/-- Models `lambda_handler` (lines 100-159): validate the four required
environment variables (raising `ValueError` naming the missing ones), fetch
the token, build the authenticated URL, set up the repository, update the
counter at `os.path.join("/tmp/repo", FILE_PATH)`, stage that file, commit
with a message embedding the new counter value, push to `origin`, and return
a 200 response; any raised exception is caught at the top, logged, and turned
into a 500 response carrying `str(e)`. Returns (response, effects, logs). -/
def lambda_handler (w : World) : Response × List Effect × List String :=
  let missing := missingVars w.env
  if missing = [] then
    let github_repo := getEnvD w.env "GITHUB_REPO"
    let file_path := getEnvD w.env "FILE_PATH"
    let branch := getEnvD w.env "BRANCH"
    let secret_id := getEnvD w.env "AWS_SECRET_ID"
    let tok := get_github_token w.secretOutcome w.token secret_id
    match tok.1 with
    | Except.error e =>
        (⟨500, Body.failure e⟩, tok.2.1,
         tok.2.2 ++ ["Lambda execution failed: " ++ e])
    | Except.ok token =>
        let repo_url := "https://" ++ token ++ "@github.com/" ++ github_repo ++ ".git"
        let sr := setup_repo w.repoDirExists w.cloneOutcome repo_url branch
        match sr.1 with
        | Except.error e =>
            (⟨500, Body.failure e⟩, tok.2.1 ++ sr.2.1,
             tok.2.2 ++ sr.2.2 ++ ["Lambda execution failed: " ++ e])
        | Except.ok _ =>
            let cpath := counter_file_path file_path
            let uc := update_counter_run cpath w.counterFile
            let counter := uc.1
            let effs := tok.2.1 ++ sr.2.1 ++ uc.2.1
            let logs := tok.2.2 ++ sr.2.2 ++ uc.2.2
            match w.addOutcome with
            | Except.error e =>
                (⟨500, Body.failure e⟩, effs ++ [Effect.gitAdd cpath],
                 logs ++ ["Lambda execution failed: " ++ e])
            | Except.ok _ =>
                let commit_message := "Automated commit: Increment counter to " ++ py_str counter
                match w.commitOutcome with
                | Except.error e =>
                    (⟨500, Body.failure e⟩,
                     effs ++ [Effect.gitAdd cpath, Effect.gitCommit commit_message],
                     logs ++ ["Lambda execution failed: " ++ e])
                | Except.ok _ =>
                    match w.pushOutcome with
                    | Except.error e =>
                        (⟨500, Body.failure e⟩,
                         effs ++ [Effect.gitAdd cpath, Effect.gitCommit commit_message,
                                  Effect.gitPush "origin"],
                         logs ++ ["Created commit", "Lambda execution failed: " ++ e])
                    | Except.ok _ =>
                        (⟨200, Body.success ("Counter updated to " ++ py_str counter)
                               github_repo branch⟩,
                         effs ++ [Effect.gitAdd cpath, Effect.gitCommit commit_message,
                                  Effect.gitPush "origin"],
                         logs ++ ["Created commit",
                                  "Successfully pushed changes to remote repository"])
  else
    (⟨500, Body.failure (missingMsg missing)⟩, [],
     ["Lambda execution failed: " ++ missingMsg missing])

/-- A fully populated environment used by concrete witnesses. -/
def envAll : String → Option String := fun v =>
  if v = "GITHUB_REPO" then some "owner/repo"
  else if v = "FILE_PATH" then some "counter.txt"
  else if v = "BRANCH" then some "main"
  else if v = "AWS_SECRET_ID" then some "sid"
  else none

/-- A world in which every external operation succeeds and the counter file
holds " 41 ". -/
def wOk : World :=
  ⟨envAll, true, Except.ok (), "TOKEN", Except.ok (), some " 41 ",
   Except.ok (), Except.ok (), Except.ok ()⟩

/-- A world with an empty environment (every required variable missing). -/
def wNoEnv : World :=
  ⟨fun _ => none, false, Except.ok (), "TOKEN", Except.ok (), none,
   Except.ok (), Except.ok (), Except.ok ()⟩

/-- C1: for every counter file whose stripped content parses as a
non-negative integer N, `update_counter` returns N+1 and writes the decimal
string of N+1 to the file (the write replaces the whole content). -/
theorem c1_update_counter_increments (content : String) (N : Int)
    (hp : pyInt (pyStrip content) = some N) (_hN : 0 ≤ N) :
    update_counter (some content) = (N + 1, py_str (N + 1)) := by
  simp [update_counter, hp]

/-- Witness for C1 at the concrete content " 41 ". -/
theorem c1_witness :
    pyInt (pyStrip " 41 ") = some 41 ∧ (0 : Int) ≤ 41 ∧
      update_counter (some " 41 ") = (42, py_str 42) :=
  ⟨by decide, by decide, c1_update_counter_increments " 41 " 41 (by decide) (by decide)⟩

/-- C2: for every counter file whose stripped content does not parse as an
integer (the empty string included), `update_counter` writes "1" and
returns 1. -/
theorem c2_update_counter_resets (content : String)
    (hp : pyInt (pyStrip content) = none) :
    update_counter (some content) = (1, "1") := by
  simp [update_counter, hp]
  rfl

/-- Witness for C2 at the concrete content "abc". -/
theorem c2_witness :
    pyInt (pyStrip "abc") = none ∧ update_counter (some "abc") = (1, "1") :=
  ⟨by decide, c2_update_counter_resets "abc" (by decide)⟩

/-- C3: when the counter file does not exist, `update_counter` returns 1 and
creates the file with content "1": the run performs a single write of "1"
(no read) and returns 1. -/
theorem c3_first_run_produces_one (p : String) :
    update_counter none = (1, "1") ∧
      update_counter_run p none = (1, [Effect.writeFile p "1"], []) := by
  constructor
  · rfl
  · rfl

/-- C6 counterexample: a counter file containing "-2" parses (Python `int`
accepts a sign), so `update_counter` persists and returns -1, a negative
value: the claim that every prior file state yields a value ≥ 0 is false. -/
theorem c6_counterexample :
    update_counter (some "-2") = (-1, "-1") ∧
      ¬ (0 ≤ (update_counter (some "-2")).1) := by
  constructor
  · decide
  · decide

/-- C6 amended: for every prior file state that is absent, unparsable, or
whose content parses as a non-negative integer (equivalently: whose parsed
prior value, when there is one, is ≥ 0), the value returned by
`update_counter` is ≥ 0 and the persisted string is its decimal form. -/
theorem c6_counter_nonneg (c : Option String)
    (h : ∀ n : Int, parsedOf c = some n → 0 ≤ n) :
    0 ≤ (update_counter c).1 ∧ (update_counter c).2 = py_str (update_counter c).1 := by
  cases c with
  | none => exact ⟨by decide, rfl⟩
  | some s =>
    cases hp : pyInt (pyStrip s) with
    | none => simp [update_counter, hp]
    | some n =>
      have h0 : 0 ≤ n := h n (by simp [parsedOf, hp])
      simp [update_counter, hp]
      omega

/-- Witness for the amended C6 at the concrete content "5". -/
theorem c6_witness :
    (∀ n : Int, parsedOf (some "5") = some n → 0 ≤ n) ∧
      0 ≤ (update_counter (some "5")).1 := by
  have h : ∀ n : Int, parsedOf (some "5") = some n → 0 ≤ n := by
    intro n hn
    have h5 : parsedOf (some "5") = some 5 := by decide
    rw [h5] at hn
    cases hn
    decide
  exact ⟨h, (c6_counter_nonneg (some "5") h).1⟩

/-- C10: the counter file path is `os.path.join("/tmp/repo", FILE_PATH)`;
when FILE_PATH is absolute the working-directory component is discarded and
the path is FILE_PATH itself, and when it is relative the path is FILE_PATH
under "/tmp/repo/". -/
theorem c10_join_drops_workdir (fp : String) (h : startsWithSlash fp = true) :
    counter_file_path fp = fp := by
  simp [counter_file_path, os_path_join, h]

/-- Witness for C10 at the concrete absolute path "/etc/target". -/
theorem c10_witness :
    startsWithSlash "/etc/target" = true ∧
      counter_file_path "/etc/target" = "/etc/target" :=
  ⟨by decide, c10_join_drops_workdir "/etc/target" (by decide)⟩

/-- The relative case of the path join: a relative FILE_PATH stays inside the clone. -/
theorem c10_relative_join (fp : String) (h : startsWithSlash fp = false) :
    counter_file_path fp = "/tmp/repo/" ++ fp := by
  simp [counter_file_path, os_path_join, h]
  intro h1
  exact absurd h1 (by decide)

/-- Every member of a joined list occurs within the joined string. -/
theorem pyJoin_mem_within (sep : String) (l : List String) (x : String)
    (hx : x ∈ l) : x.data <:+: (pyJoin sep l).data := by
  induction l with
  | nil => cases hx
  | cons a t ih =>
    rcases List.mem_cons.mp hx with rfl | hx'
    · cases t with
      | nil => exact List.infix_rfl
      | cons b tl =>
        show x.data <:+: (x ++ sep ++ pyJoin sep (b :: tl)).data
        refine List.IsPrefix.isInfix ?_
        simp [String.data_append]
    · cases t with
      | nil => cases hx'
      | cons b tl =>
        have h1 := ih hx'
        show x.data <:+: (a ++ sep ++ pyJoin sep (b :: tl)).data
        refine h1.trans (List.IsSuffix.isInfix ?_)
        rw [String.data_append, String.data_append, List.append_assoc]
        exact (List.suffix_append sep.data _).trans (List.suffix_append a.data _)

/-- C5: whenever any required configuration variable is absent or empty,
`lambda_handler` performs no external operation at all, returns status 500
whose error is exactly the `ValueError` message listing the missing names,
and that message contains every missing variable's name. -/
theorem c5_validation_aborts (w : World) (h : missingVars w.env ≠ []) :
    (lambda_handler w).2.1 = [] ∧
      (lambda_handler w).1 =
        ⟨500, Body.failure (missingMsg (missingVars w.env))⟩ ∧
      ∀ v ∈ missingVars w.env, v.data <:+: (missingMsg (missingVars w.env)).data := by
  refine ⟨?_, ?_, ?_⟩
  · simp [lambda_handler, h]
  · simp [lambda_handler, h]
  · intro v hv
    have h1 := pyJoin_mem_within ", " (missingVars w.env) v hv
    refine h1.trans (List.IsSuffix.isInfix ?_)
    show (pyJoin ", " (missingVars w.env)).data <:+
      ("Missing required environment variables: " ++ pyJoin ", " (missingVars w.env)).data
    rw [String.data_append]
    exact List.suffix_append _ _

/-- Witness for C5 at the empty environment. -/
theorem c5_witness :
    missingVars wNoEnv.env ≠ [] ∧ (lambda_handler wNoEnv).2.1 = [] :=
  ⟨by decide, (c5_validation_aborts wNoEnv (by decide)).1⟩

/-- C7: on a successful clone, `setup_repo` performs exactly, in order: the
forced recursive removal of the working directory when it already exists,
the clone of the given branch only from the given URL, and the two
repository-local configuration writes setting the bot identity. -/
theorem c7_setup_repo_steps (dirExists : Bool) (url branch : String) :
    (setup_repo dirExists (Except.ok ()) url branch).2.1 =
      (if dirExists then [Effect.removeDir "/tmp/repo"] else []) ++
        [Effect.cloneRepo url branch,
         Effect.setLocalConfig "user" "name" "Commitron Bot",
         Effect.setLocalConfig "user" "email" "bot@commitron.com"] ∧
      (setup_repo dirExists (Except.ok ()) url branch).1 = Except.ok () := by
  exact ⟨rfl, rfl⟩

/-- C4: `lambda_handler` always returns one of exactly two shapes: a 200
response whose body is the success message "Counter updated to N" where N is
the new counter value produced by `update_counter`, together with the
repository identifier and branch, or a 500 response whose body is a failure
carrying an error description. The embedding is a total function, so no
exception escapes. -/
theorem c4_two_result_shapes (w : World) :
    ((lambda_handler w).1 =
        ⟨200, Body.success ("Counter updated to " ++ py_str (update_counter w.counterFile).1)
          (getEnvD w.env "GITHUB_REPO") (getEnvD w.env "BRANCH")⟩) ∨
      (∃ e : String, (lambda_handler w).1 = ⟨500, Body.failure e⟩) := by
  by_cases hm : missingVars w.env = []
  · rcases hsec : w.secretOutcome with e | _u
    · exact Or.inr ⟨e, by simp [lambda_handler, hm, hsec, get_github_token]⟩
    · rcases hcl : w.cloneOutcome with e | _u
      · exact Or.inr ⟨e, by
          simp [lambda_handler, hm, hsec, hcl, get_github_token, setup_repo]⟩
      · rcases ha : w.addOutcome with e | _u
        · exact Or.inr ⟨e, by
            simp [lambda_handler, hm, hsec, hcl, ha, get_github_token, setup_repo,
                  update_counter_run]⟩
        · rcases hc : w.commitOutcome with e | _u
          · exact Or.inr ⟨e, by
              simp [lambda_handler, hm, hsec, hcl, ha, hc, get_github_token, setup_repo,
                    update_counter_run]⟩
          · rcases hp : w.pushOutcome with e | _u
            · exact Or.inr ⟨e, by
                simp [lambda_handler, hm, hsec, hcl, ha, hc, hp, get_github_token,
                      setup_repo, update_counter_run]⟩
            · exact Or.inl (by
                simp [lambda_handler, hm, hsec, hcl, ha, hc, hp, get_github_token,
                      setup_repo, update_counter_run])
  · exact Or.inr ⟨missingMsg (missingVars w.env), by simp [lambda_handler, hm]⟩

/-- C8: the log output of `lambda_handler` is identical for any two runs
that differ only in the token value: the token reaches only the constructed
repository URL (and hence the clone effect), never a log line. -/
theorem c8_token_never_logged (w : World) (t1 t2 : String) :
    (lambda_handler { w with token := t1 }).2.2 =
      (lambda_handler { w with token := t2 }).2.2 := by
  rcases w with ⟨env, dx, so, tk, co, cf, ao, cmo, po⟩
  by_cases hm : missingVars env = []
  · rcases so with e | -
    · simp [lambda_handler, hm, get_github_token]
    · rcases co with e | -
      · simp [lambda_handler, hm, get_github_token, setup_repo]
      · rcases ao with e | - <;> rcases cmo with e2 | - <;> rcases po with e3 | - <;>
          simp [lambda_handler, hm, get_github_token, setup_repo, update_counter_run]
  · simp [lambda_handler, hm]

/-- C9: whenever `lambda_handler` returns status 200, its external
operations are exactly, in order: the secret fetch, the conditional removal
of the stale working directory, the branch-limited clone of the
authenticated URL, the two repository-local identity writes, the counter
read (when the file exists) and the counter write, the staging of that
single file, exactly one commit whose message embeds the new counter value,
and the push to the remote named "origin". -/
theorem c9_success_effect_sequence (w : World)
    (h : (lambda_handler w).1.statusCode = 200) :
    (lambda_handler w).2.1 =
      [Effect.getSecret (getEnvD w.env "AWS_SECRET_ID")] ++
        (if w.repoDirExists then [Effect.removeDir "/tmp/repo"] else []) ++
        [Effect.cloneRepo
            ("https://" ++ w.token ++ "@github.com/" ++ getEnvD w.env "GITHUB_REPO" ++ ".git")
            (getEnvD w.env "BRANCH"),
         Effect.setLocalConfig "user" "name" "Commitron Bot",
         Effect.setLocalConfig "user" "email" "bot@commitron.com"] ++
        (match w.counterFile with
         | some _ => [Effect.readFile (counter_file_path (getEnvD w.env "FILE_PATH"))]
         | none => []) ++
        [Effect.writeFile (counter_file_path (getEnvD w.env "FILE_PATH"))
            (update_counter w.counterFile).2,
         Effect.gitAdd (counter_file_path (getEnvD w.env "FILE_PATH")),
         Effect.gitCommit
            ("Automated commit: Increment counter to " ++ py_str (update_counter w.counterFile).1),
         Effect.gitPush "origin"] := by
  by_cases hm : missingVars w.env = []
  · rcases hsec : w.secretOutcome with e | _u
    · exfalso
      simp [lambda_handler, hm, hsec, get_github_token] at h
    · rcases hcl : w.cloneOutcome with e | _u
      · exfalso
        simp [lambda_handler, hm, hsec, hcl, get_github_token, setup_repo] at h
      · rcases ha : w.addOutcome with e | _u
        · exfalso
          simp [lambda_handler, hm, hsec, hcl, ha, get_github_token, setup_repo,
                update_counter_run] at h
        · rcases hc : w.commitOutcome with e | _u
          · exfalso
            simp [lambda_handler, hm, hsec, hcl, ha, hc, get_github_token, setup_repo,
                  update_counter_run] at h
          · rcases hp : w.pushOutcome with e | _u
            · exfalso
              simp [lambda_handler, hm, hsec, hcl, ha, hc, hp, get_github_token,
                    setup_repo, update_counter_run] at h
            · cases hcf : w.counterFile with
              | none =>
                simp [lambda_handler, hm, hsec, hcl, ha, hc, hp, hcf, get_github_token,
                      setup_repo, update_counter_run]
              | some s =>
                simp [lambda_handler, hm, hsec, hcl, ha, hc, hp, hcf, get_github_token,
                      setup_repo, update_counter_run]
  · exfalso
    simp [lambda_handler, hm] at h

/-- Witness for C9 at the all-success world `wOk`. -/
theorem c9_witness :
    (lambda_handler wOk).1.statusCode = 200 ∧
      (lambda_handler wOk).2.1 =
        [Effect.getSecret (getEnvD wOk.env "AWS_SECRET_ID")] ++
          (if wOk.repoDirExists then [Effect.removeDir "/tmp/repo"] else []) ++
          [Effect.cloneRepo
              ("https://" ++ wOk.token ++ "@github.com/" ++ getEnvD wOk.env "GITHUB_REPO" ++ ".git")
              (getEnvD wOk.env "BRANCH"),
           Effect.setLocalConfig "user" "name" "Commitron Bot",
           Effect.setLocalConfig "user" "email" "bot@commitron.com"] ++
          (match wOk.counterFile with
           | some _ => [Effect.readFile (counter_file_path (getEnvD wOk.env "FILE_PATH"))]
           | none => []) ++
          [Effect.writeFile (counter_file_path (getEnvD wOk.env "FILE_PATH"))
              (update_counter wOk.counterFile).2,
           Effect.gitAdd (counter_file_path (getEnvD wOk.env "FILE_PATH")),
           Effect.gitCommit
              ("Automated commit: Increment counter to " ++ py_str (update_counter wOk.counterFile).1),
           Effect.gitPush "origin"] :=
  ⟨by decide, c9_success_effect_sequence wOk (by decide)⟩
